import Mathlib

/-!
Shallow embedding of the cyber-health-check backend (src/backend) and proofs
about its scanners, scorer, orchestrator and report generator.

Network effects are factored out as explicit outcome values: each scanner is
embedded as a pure function from the outcome of its probes to the list of
finding records it appends, exactly following the branch structure of the
Python source.
-/

namespace CyberHealth

/-- The `status` field of a finding dictionary: one of the three string
values "pass" / "warning" / "fail" used throughout the scanners. -/
inductive Status
  | pass
  | warning
  | fail
deriving DecidableEq, Repr

/-- One finding dictionary as built by the scanners: keys `name`, `status`,
`where`, `description`, `risk`, `mitigation`, `details` (the Python key
`where` is spelled `where_` because `where` is a Lean keyword). -/
structure Finding where
  name : String
  status : Status
  where_ : String
  description : String
  risk : String
  mitigation : String
  details : String
deriving DecidableEq, Repr

/-- Number of findings with status "pass" in a flattened collection. -/
def passCount (checks : List Finding) : Nat :=
  (checks.filter (fun c => c.status == Status.pass)).length

/-- Number of findings with status "warning". -/
def warningCount (checks : List Finding) : Nat :=
  (checks.filter (fun c => c.status == Status.warning)).length

/-- Number of findings with status "fail". -/
def failCount (checks : List Finding) : Nat :=
  (checks.filter (fun c => c.status == Status.fail)).length

/-- The accumulation loop of `calculate_score` (src/backend/main.py, lines
72-77): 10 points per pass, 5 per warning, nothing for fail. -/
def scorePoints (checks : List Finding) : Nat :=
  checks.foldl
    (fun acc c =>
      match c.status with
      | Status.pass => acc + 10
      | Status.warning => acc + 5
      | Status.fail => acc)
    0

/-- `calculate_score` from src/backend/main.py, lines 67-79: 0 for an empty
collection, otherwise `min(100, 10*passCount + 5*warningCount)`. -/
def calculate_score (checks : List Finding) : Nat :=
  if checks = [] then 0
  else min 100 (scorePoints checks)

/-- Modelled from the spec (section 3): the pass-ratio formula
`score = round(100 * passCount / max(1, totalCount))`, written with natural
division so that `(200*p + t) / (2*t)` is `100*p/t` rounded to the nearest
integer (halves up).  This definition follows the specification's words, for
comparison with `calculate_score` above, which follows the source. -/
def spec_score (checks : List Finding) : Nat :=
  let p := passCount checks
  let t := max 1 checks.length
  (200 * p + t) / (2 * t)

/-! ## SSL checker (src/backend/scanners/ssl_checker.py) -/

/-- The parts of the peer certificate that `check_ssl` inspects: the issuer
(reported in details) and, when the `notAfter` field is present and truthy,
the signed day count `(not_after - datetime.now()).days`. -/
structure CertInfo where
  issuer : String
  notAfterDays : Option Int
deriving DecidableEq, Repr

/-- Outcome of the TLS probe in `check_ssl`, one constructor per control
path of the Python source: a completed handshake (with the certificate dict,
empty/None modelled as `none`, and the negotiated cipher, `None` modelled as
`none`), a `socket.timeout`, an `ssl.SSLError`, any other exception inside
the connection block, or an exception in the outer `try`. -/
inductive SSLOutcome
  | success (cert : Option CertInfo) (cipher : Option String)
  | socketTimeout
  | sslError (msg : String)
  | innerError (msg : String)
  | outerError (msg : String)
deriving DecidableEq, Repr

/-- "SSL Certificate Presence" pass finding (ssl_checker.py lines 33-41). -/
def certPresencePassFinding (issuer : String) : Finding :=
  { name := "SSL Certificate Presence"
    status := Status.pass
    where_ := "TLS Handshake"
    description := "Valid SSL/TLS certificate detected."
    risk := "Low – Encrypted communication is properly configured."
    mitigation := "No action required."
    details := "Issuer: " ++ issuer }

/-- "SSL Certificate Presence" fail finding (ssl_checker.py lines 43-51). -/
def certPresenceFailFinding : Finding :=
  { name := "SSL Certificate Presence"
    status := Status.fail
    where_ := "TLS Handshake"
    description := "No valid SSL certificate found."
    risk := "High – Traffic can be intercepted (MITM attacks)."
    mitigation := "Install a valid SSL/TLS certificate from a trusted CA."
    details := "Certificate not returned during handshake." }

/-- "Certificate Expiration" finding as a function of the signed day count
`days_until_expiry` (ssl_checker.py lines 62-91): pass when strictly more
than 30 days remain, warning when strictly more than 0, fail otherwise. -/
def expiryFinding (d : Int) : Finding :=
  if d > 30 then
    { name := "Certificate Expiration"
      status := Status.pass
      where_ := "Certificate Metadata"
      description := "Certificate expiration is not imminent."
      risk := "Low – Certificate valid for extended period."
      mitigation := "Monitor expiration date periodically."
      details := "Expires in " ++ toString d ++ " days" }
  else if d > 0 then
    { name := "Certificate Expiration"
      status := Status.warning
      where_ := "Certificate Metadata"
      description := "Certificate will expire soon."
      risk := "Medium – Service disruption risk if not renewed."
      mitigation := "Renew the certificate before expiration."
      details := "Expires in " ++ toString d ++ " days" }
  else
    { name := "Certificate Expiration"
      status := Status.fail
      where_ := "Certificate Metadata"
      description := "Certificate has expired."
      risk := "High – Browsers will block access and users are exposed."
      mitigation := "Immediately renew and install a valid certificate."
      details := "Expired " ++ toString (-d) ++ " days ago" }

/-- "TLS Cipher Strength" pass finding (ssl_checker.py lines 99-107). -/
def cipherFinding (cipherName : String) : Finding :=
  { name := "TLS Cipher Strength"
    status := Status.pass
    where_ := "TLS Negotiation"
    description := "Encryption cipher successfully negotiated."
    risk := "Low – Secure cipher in use."
    mitigation := "Ensure weak ciphers are disabled in server configuration."
    details := "Cipher: " ++ cipherName }

/-- "HTTPS Connectivity" fail finding on `socket.timeout` (lines 110-118). -/
def httpsConnectivityFailFinding : Finding :=
  { name := "HTTPS Connectivity"
    status := Status.fail
    where_ := "Network Connection"
    description := "Failed to connect to HTTPS port (timeout)."
    risk := "High – HTTPS service may be unavailable."
    mitigation := "Ensure port 443 is open and server is reachable."
    details := "Connection attempt timed out." }

/-- "SSL Handshake Error" fail finding on `ssl.SSLError` (lines 120-129). -/
def handshakeErrorFinding (msg : String) : Finding :=
  { name := "SSL Handshake Error"
    status := Status.fail
    where_ := "TLS Handshake"
    description := "SSL certificate error occurred."
    risk := "High – Misconfigured or invalid certificate."
    mitigation := "Verify certificate chain and server configuration."
    details := msg }

/-- "SSL Verification Failure" fail finding on any other inner exception
(lines 131-140). -/
def verificationFailureFinding (msg : String) : Finding :=
  { name := "SSL Verification Failure"
    status := Status.fail
    where_ := "TLS Verification"
    description := "Failed to verify SSL certificate."
    risk := "High – Certificate validation could not be completed."
    mitigation := "Check server TLS configuration and certificate setup."
    details := msg }

/-- "SSL Check Failure" fail finding of the outer handler (lines 142-151). -/
def sslCheckFailureFinding (msg : String) : Finding :=
  { name := "SSL Check Failure"
    status := Status.fail
    where_ := "SSL Module"
    description := "SSL check process failed unexpectedly."
    risk := "Unknown – Scan could not complete."
    mitigation := "Review server logs and scanning logic."
    details := msg }

/-- `check_ssl` from src/backend/scanners/ssl_checker.py as a function of
the probe outcome: on a completed handshake it appends the certificate
presence finding (pass or fail by truthiness of the cert dict), then the
expiry finding when the cert carries a truthy `notAfter`, then the cipher
finding when a cipher was negotiated; each exception path appends its one
fail finding. -/
def check_ssl (o : SSLOutcome) : List Finding :=
  match o with
  | SSLOutcome.success cert cipher =>
      (match cert with
       | some c => [certPresencePassFinding c.issuer]
       | none => [certPresenceFailFinding])
      ++ (match cert with
          | some c =>
              match c.notAfterDays with
              | some d => [expiryFinding d]
              | none => []
          | none => [])
      ++ (match cipher with
          | some cn => [cipherFinding cn]
          | none => [])
  | SSLOutcome.socketTimeout => [httpsConnectivityFailFinding]
  | SSLOutcome.sslError m => [handshakeErrorFinding m]
  | SSLOutcome.innerError m => [verificationFailureFinding m]
  | SSLOutcome.outerError m => [sslCheckFailureFinding m]

/-! ## Port scanner (src/backend/scanners/port_scanner.py) -/

/-- `COMMON_PORTS` (port_scanner.py lines 10-30): the fixed catalog of 19
well-known ports with their service names, in source (insertion) order. -/
def COMMON_PORTS : List (Nat × String) :=
  [(21, "FTP"), (22, "SSH"), (25, "SMTP"), (53, "DNS"), (80, "HTTP"),
   (110, "POP3"), (143, "IMAP"), (443, "HTTPS"), (465, "SMTPS"),
   (587, "SMTP"), (993, "IMAPS"), (995, "POP3S"), (3306, "MySQL"),
   (5432, "PostgreSQL"), (5984, "CouchDB"), (6379, "Redis"),
   (27017, "MongoDB"), (8080, "HTTP-Alt"), (8443, "HTTPS-Alt")]

/-- Outcome of one TCP connect attempt in `check_port`: connection
established, `asyncio.TimeoutError`, `ConnectionRefusedError`, another
`OSError`, or an exception of any other type (not caught by `check_port`,
captured later by `gather(..., return_exceptions=True)`). -/
inductive ConnectOutcome
  | connected
  | timedOut
  | refused
  | osError (msg : String)
  | otherExn (msg : String)
deriving DecidableEq, Repr

/-- `check_port` (port_scanner.py lines 33-42): `True` on a successful
connect, `False` on timeout / refusal / any `OSError`; any other exception
type escapes the function (here: `Except.error`). -/
def check_port : ConnectOutcome → Except String Bool
  | ConnectOutcome.connected => Except.ok true
  | ConnectOutcome.timedOut => Except.ok false
  | ConnectOutcome.refused => Except.ok false
  | ConnectOutcome.osError _ => Except.ok false
  | ConnectOutcome.otherExn m => Except.error m

/-- The `open_ports` list of `scan_ports` (lines 50-55): the catalog ports,
in catalog order, whose probe result `isinstance(result, bool) and result`
holds — an exception captured by `gather` is not a bool, hence not open. -/
def openPortsOf (probe : Nat → ConnectOutcome) : List Nat :=
  (COMMON_PORTS.map Prod.fst).filter
    (fun p =>
      match check_port (probe p) with
      | Except.ok b => b
      | Except.error _ => false)

/-- "Port Exposure" pass finding when no port is open (lines 60-69). -/
def portExposureFinding : Finding :=
  { name := "Port Exposure"
    status := Status.pass
    where_ := "Network Layer"
    description := "No common ports are exposed."
    risk := "Low – No detectable external services exposed."
    mitigation := "Continue maintaining firewall restrictions."
    details := "No ports responded to connection attempts." }

/-- The ports of `open_ports` outside the expected set {80, 443}
(port_scanner.py lines 72-73). -/
def unexpectedPortsOf (openPorts : List Nat) : List Nat :=
  openPorts.filter (fun p => !(p == 80 || p == 443))

/-- "Unexpected Open Ports" warning finding (lines 78-92); details list the
port numbers and the service names looked up in the catalog. -/
def unexpectedPortsFinding (ports : List Nat) : Finding :=
  { name := "Unexpected Open Ports"
    status := Status.warning
    where_ := "Network Layer"
    description := "Unexpected services are exposed to the internet."
    risk := "Medium – Exposed services increase attack surface."
    mitigation := "Close unused ports via firewall or restrict access."
    details :=
      "Ports: " ++ String.intercalate ", " (ports.map toString) ++ " ("
        ++ String.intercalate ", "
            (ports.map (fun p =>
              (List.lookup p COMMON_PORTS).getD ("Port " ++ toString p)))
        ++ ")" }

/-- "HTTPS Not Enabled" warning finding (lines 97-106). -/
def httpsNotEnabledFinding : Finding :=
  { name := "HTTPS Not Enabled"
    status := Status.warning
    where_ := "Transport Layer"
    description := "HTTP is available but HTTPS is not detected."
    risk := "High – Traffic may be transmitted unencrypted."
    mitigation := "Enable HTTPS with a valid SSL/TLS certificate."
    details := "Port 80 open, Port 443 closed." }

/-- "HTTPS Support" pass finding (lines 108-117). -/
def httpsSupportFinding : Finding :=
  { name := "HTTPS Support"
    status := Status.pass
    where_ := "Transport Layer"
    description := "HTTPS port is open and accessible."
    risk := "Low – Encrypted communication available."
    mitigation := "Ensure HTTP traffic redirects to HTTPS."
    details := "Port 443 is open." }

/-- "Port Scan Failure" fail finding of the outer handler (lines 119-128). -/
def portScanFailureFinding (msg : String) : Finding :=
  { name := "Port Scan Failure"
    status := Status.fail
    where_ := "Port Scanner Module"
    description := "Port scanning encountered an issue."
    risk := "Unknown – Scan incomplete."
    mitigation := "Review scanner configuration and network reachability."
    details := msg }

/-- Post-processing policy of `scan_ports` (lines 57-117) as a function of
the settled `open_ports` list: one pass finding when nothing is open,
otherwise a warning for unexpected ports when there are any, then an
`if 80 open and 443 closed / elif 443 open` judgment on HTTPS. -/
def scan_ports_policy (openPorts : List Nat) : List Finding :=
  if openPorts = [] then [portExposureFinding]
  else
    (if unexpectedPortsOf openPorts = [] then []
     else [unexpectedPortsFinding (unexpectedPortsOf openPorts)])
    ++ (if 80 ∈ openPorts ∧ 443 ∉ openPorts then [httpsNotEnabledFinding]
        else if 443 ∈ openPorts then [httpsSupportFinding]
        else [])

/-- Run of `scan_ports`: either the probes all settle (one connect outcome
per catalog port) and policy evaluation runs, or an exception inside the
outer `try` reaches its handler. -/
inductive PortsOutcome
  | normal (probe : Nat → ConnectOutcome)
  | moduleError (msg : String)

/-- `scan_ports` from src/backend/scanners/port_scanner.py. -/
def scan_ports : PortsOutcome → List Finding
  | PortsOutcome.normal probe => scan_ports_policy (openPortsOf probe)
  | PortsOutcome.moduleError m => [portScanFailureFinding m]

/-! ## Subdomain scanner (src/backend/scanners/subdomain_scanner.py) -/

/-- `COMMON_SUBDOMAINS` (subdomain_scanner.py lines 10-19), in source
order. -/
def COMMON_SUBDOMAINS : List String :=
  ["www", "mail", "ftp", "localhost", "webmail", "smtp", "pop", "ns",
   "ns1", "ns2", "ns3", "ns4", "ns5", "ns0", "m", "mail2", "test",
   "portal", "admin", "api", "dev", "staging", "beta", "demo", "app",
   "apps", "blog", "shop", "forum", "support", "help", "docs", "static",
   "media", "images", "cdn", "download", "downloads", "secure", "ssl",
   "vpn", "backup", "server", "services", "status", "stats", "analytics",
   "monitoring", "logs", "git", "github", "gitlab", "jenkins", "ci",
   "build", "deploy"]

/-- The `found_subdomains` list of `scan_subdomains` (lines 39-48): the
full names `sub ++ "." ++ domain`, in catalog order, whose resolution
(`resolve_domain`, which converts every exception to `False`) succeeded.
An exception captured by `gather` would not be a bool, hence not found;
`resolve_domain` itself never lets one escape. -/
def foundSubdomains (domain : String) (resolves : String → Bool) : List String :=
  (COMMON_SUBDOMAINS.map (fun sub => sub ++ "." ++ domain)).filter resolves

/-- The `expected` baseline list (subdomain_scanner.py lines 65-69). -/
def expectedSubdomains (domain : String) : List String :=
  ["www." ++ domain, "mail." ++ domain, "ftp." ++ domain]

/-- The `unexpected` list (lines 71-73): found names outside the baseline. -/
def unexpectedSubdomainsOf (domain : String) (found : List String) : List String :=
  found.filter (fun s => !((expectedSubdomains domain).contains s))

/-- Whether the character list `l` starts with the character list `k`. -/
def listStarts : List Char → List Char → Bool
  | [], _ => true
  | _ :: _, [] => false
  | a :: ks, b :: ls => a == b && listStarts ks ls

/-- Whether the character list `k` occurs as a contiguous run inside `l`. -/
def listHasSub (k : List Char) : List Char → Bool
  | [] => listStarts k []
  | c :: ls => listStarts k (c :: ls) || listHasSub k ls

/-- The Python substring test `k in s`, over the underlying character
lists. -/
def containsSub (s k : String) : Bool :=
  listHasSub k.data s.data

/-- The dev/staging/test/beta marker test of lines 89-92, applied to the
full discovered name (domain part included). -/
def hasDevKeyword (s : String) : Bool :=
  ["dev", "staging", "test", "beta"].any (fun k => containsSub s k)

/-- The `dev_subdomains` list (lines 89-92). -/
def devSubdomainsOf (found : List String) : List String :=
  found.filter hasDevKeyword

/-- "Subdomain Enumeration" pass finding when nothing resolved (lines
53-62). -/
def subdomainEnumPassFinding : Finding :=
  { name := "Subdomain Enumeration"
    status := Status.pass
    where_ := "DNS Resolution"
    description := "No common subdomains discovered."
    risk := "Low – Reduced attack surface."
    mitigation := "Continue monitoring DNS records."
    details := "No known patterns resolved." }

/-- "Subdomain Discovery" finding (lines 75-84): warning iff any found name
is outside the baseline, details listing the first 5 found names with an
ellipsis when more were found. -/
def subdomainDiscoveryFinding (domain : String) (found : List String) : Finding :=
  { name := "Subdomain Discovery"
    status :=
      if unexpectedSubdomainsOf domain found = [] then Status.pass
      else Status.warning
    where_ := "DNS Resolution"
    description := toString found.length ++ " subdomain(s) discovered."
    risk := "Medium – Each exposed subdomain increases attack surface."
    mitigation := "Ensure unused subdomains are removed and active ones are secured."
    details :=
      "Found: " ++ String.intercalate ", " (found.take 5)
        ++ (if found.length > 5 then "..." else "") }

/-- "Development Environment Exposure" warning finding (lines 94-103). -/
def devExposureFinding (devs : List String) : Finding :=
  { name := "Development Environment Exposure"
    status := Status.warning
    where_ := "DNS Resolution"
    description := "Development or staging environments detected."
    risk := "High – Dev environments often lack proper security controls."
    mitigation := "Restrict access via IP whitelisting or authentication."
    details := "Found: " ++ String.intercalate ", " devs }

/-- "Subdomain Scan Failure" fail finding of the outer handler (lines
105-114). -/
def subdomainScanFailureFinding (msg : String) : Finding :=
  { name := "Subdomain Scan Failure"
    status := Status.fail
    where_ := "Subdomain Scanner Module"
    description := "Subdomain scanning encountered an unexpected error."
    risk := "Unknown – Scan incomplete."
    mitigation := "Review DNS configuration and scanner logs."
    details := msg }

/-- Run of `scan_subdomains`: either all resolutions settle (resolution
success decided per full name), or an exception reaches the outer
handler. -/
inductive SubdomainsOutcome
  | normal (resolves : String → Bool)
  | moduleError (msg : String)

/-- `scan_subdomains` from src/backend/scanners/subdomain_scanner.py. -/
def scan_subdomains (domain : String) : SubdomainsOutcome → List Finding
  | SubdomainsOutcome.normal resolves =>
      let found := foundSubdomains domain resolves
      if found = [] then [subdomainEnumPassFinding]
      else
        subdomainDiscoveryFinding domain found
          :: (if devSubdomainsOf found = [] then []
              else [devExposureFinding (devSubdomainsOf found)])
  | SubdomainsOutcome.moduleError m => [subdomainScanFailureFinding m]

/-! ## Header checker (src/backend/scanners/header_checker.py) -/

/-- The static per-header knowledge entries of `SECURITY_HEADERS`
(header_checker.py lines 11-42). -/
structure HeaderMeta where
  description : String
  risk : String
  mitigation : String
deriving DecidableEq, Repr

/-- `SECURITY_HEADERS`: the fixed catalog of six tracked headers with their
knowledge-table text, in source (insertion) order. -/
def SECURITY_HEADERS : List (String × HeaderMeta) :=
  [("Strict-Transport-Security",
    { description := "Enforces HTTPS connections."
      risk := "Without HSTS, users are vulnerable to downgrade attacks."
      mitigation := "Add Strict-Transport-Security header with proper max-age." }),
   ("X-Content-Type-Options",
    { description := "Prevents MIME-type sniffing."
      risk := "Attackers may exploit MIME sniffing to execute malicious files."
      mitigation := "Add X-Content-Type-Options: nosniff." }),
   ("X-Frame-Options",
    { description := "Prevents clickjacking attacks."
      risk := "Site may be embedded in malicious iframes."
      mitigation := "Set X-Frame-Options to DENY or SAMEORIGIN." }),
   ("Content-Security-Policy",
    { description := "Mitigates XSS attacks."
      risk := "Without CSP, injection attacks become easier."
      mitigation := "Define a strict Content-Security-Policy header." }),
   ("Referrer-Policy",
    { description := "Controls referrer information sharing."
      risk := "Sensitive URL data may leak to external sites."
      mitigation := "Set Referrer-Policy to strict-origin-when-cross-origin." }),
   ("Permissions-Policy",
    { description := "Restricts browser feature usage."
      risk := "Browser APIs may be abused by malicious scripts."
      mitigation := "Define a restrictive Permissions-Policy header." })]

/-- The names of the six tracked headers, in catalog order. -/
def trackedHeaderNames : List String :=
  SECURITY_HEADERS.map Prod.fst

/-- ASCII lower-casing of one character (the header names the code compares
are ASCII, so this matches Python's `str.lower()` on them). -/
def asciiLower (c : Char) : Char :=
  if 65 ≤ c.toNat ∧ c.toNat ≤ 90 then Char.ofNat (c.toNat + 32) else c

/-- `s.lower()` over the underlying character list. -/
def lowerStr (s : String) : String :=
  ⟨s.data.map asciiLower⟩

/-- The case-insensitive membership test of header_checker.py line 63:
`header.lower() in {h.lower() for h in headers.keys()}`, over a response
header list of (name, value) pairs. -/
def ciMem (hdrs : List (String × String)) (key : String) : Bool :=
  hdrs.any (fun hv => lowerStr hv.fst == lowerStr key)

/-- `headers.get(header)` on aiohttp's case-insensitive multidict: the
value of the first pair whose name matches up to case, if any. -/
def ciGet (hdrs : List (String × String)) (key : String) : Option String :=
  (hdrs.find? (fun hv => lowerStr hv.fst == lowerStr key)).map Prod.snd

/-- Python `str(...)` of the optional value returned by `headers.get`. -/
def pyStrOpt : Option String → String
  | some v => v
  | none => "None"

/-- Per-header pass finding (header_checker.py lines 64-72); details carry
the header's actual value via the case-insensitive `get`. -/
def headerPassFinding (h : String) (meta : HeaderMeta) (value : Option String) : Finding :=
  { name := h ++ " Header"
    status := Status.pass
    where_ := "HTTP Response Headers"
    description := meta.description
    risk := "Low – Header properly configured."
    mitigation := "No action required."
    details := "Header value: " ++ pyStrOpt value }

/-- Per-header fail finding (lines 74-82) with the knowledge-table risk and
mitigation text for the missing header. -/
def headerFailFinding (h : String) (meta : HeaderMeta) : Finding :=
  { name := h ++ " Header Missing"
    status := Status.fail
    where_ := "HTTP Response Headers"
    description := meta.description
    risk := meta.risk
    mitigation := meta.mitigation
    details := "Header not found in response." }

/-- The per-header loop of `check_headers` (lines 62-82): one finding per
catalog entry, pass when present under any casing, fail otherwise. -/
def headerFindings (hdrs : List (String × String)) : List Finding :=
  SECURITY_HEADERS.map (fun p =>
    if ciMem hdrs p.fst then headerPassFinding p.fst p.snd (ciGet hdrs p.fst)
    else headerFailFinding p.fst p.snd)

/-- "Website Accessibility" pass finding for status 200 (lines 87-96). -/
def accessibilityPassFinding (status : Nat) : Finding :=
  { name := "Website Accessibility"
    status := Status.pass
    where_ := "HTTP Response"
    description := "Website is accessible and responding."
    risk := "Low – Server responding normally."
    mitigation := "No action required."
    details := "HTTP Status: " ++ toString status }

/-- "Website Redirect" warning finding for 3xx statuses (lines 97-106). -/
def redirectWarningFinding (status : Nat) : Finding :=
  { name := "Website Redirect"
    status := Status.warning
    where_ := "HTTP Response"
    description := "Website is redirecting."
    risk := "Medium – Redirect chains may impact SEO/security."
    mitigation := "Review redirect configuration."
    details := "HTTP Status: " ++ toString status }

/-- "Website Accessibility Issue" fail finding for any other status (lines
107-116). -/
def accessibilityFailFinding (status : Nat) : Finding :=
  { name := "Website Accessibility Issue"
    status := Status.fail
    where_ := "HTTP Response"
    description := "Unexpected HTTP response status."
    risk := "High – Site may not be functioning correctly."
    mitigation := "Investigate server configuration."
    details := "HTTP Status: " ++ toString status }

/-- The response-status judgment of lines 87-116. -/
def statusFinding (status : Nat) : Finding :=
  if status = 200 then accessibilityPassFinding status
  else if 300 ≤ status ∧ status < 400 then redirectWarningFinding status
  else accessibilityFailFinding status

/-- "Header Check SSL Error" warning finding on `aiohttp.ClientSSLError`
(lines 118-127). -/
def headerSSLErrorFinding (msg : String) : Finding :=
  { name := "Header Check SSL Error"
    status := Status.warning
    where_ := "HTTP Request"
    description := "SSL error occurred while fetching headers."
    risk := "Medium – Certificate misconfiguration may exist."
    mitigation := "Verify TLS certificate configuration."
    details := msg }

/-- "Header Check Timeout" fail finding on `asyncio.TimeoutError` (lines
129-138). -/
def headerTimeoutFinding : Finding :=
  { name := "Header Check Timeout"
    status := Status.fail
    where_ := "Network Connection"
    description := "Request timeout while checking headers."
    risk := "High – Server may be unreachable or slow."
    mitigation := "Ensure server availability and performance."
    details := "Request exceeded timeout threshold." }

/-- "Header Check Error" warning finding on any other exception inside the
session block (lines 140-149). -/
def headerCheckErrorFinding (msg : String) : Finding :=
  { name := "Header Check Error"
    status := Status.warning
    where_ := "Header Scanner"
    description := "Unexpected error while checking headers."
    risk := "Unknown – Header analysis incomplete."
    mitigation := "Review scanner logs."
    details := msg }

/-- "Header Module Failure" fail finding of the outer handler (lines
151-160). -/
def headerModuleFailureFinding (msg : String) : Finding :=
  { name := "Header Module Failure"
    status := Status.fail
    where_ := "Scanner Module"
    description := "Header checking module failed unexpectedly."
    risk := "Unknown – Scan could not complete."
    mitigation := "Investigate backend scanner configuration."
    details := msg }

/-- Outcome of the single HTTP GET in `check_headers`, one constructor per
control path: a response (status code and header pairs), an
`aiohttp.ClientSSLError`, an `asyncio.TimeoutError`, any other exception
inside the session block, or an exception in the outer `try`. -/
inductive HeadersOutcome
  | response (status : Nat) (hdrs : List (String × String))
  | clientSSLError (msg : String)
  | timeoutExn
  | innerError (msg : String)
  | outerError (msg : String)
deriving Repr

/-- `check_headers` from src/backend/scanners/header_checker.py. -/
def check_headers : HeadersOutcome → List Finding
  | HeadersOutcome.response st hdrs => headerFindings hdrs ++ [statusFinding st]
  | HeadersOutcome.clientSSLError m => [headerSSLErrorFinding m]
  | HeadersOutcome.timeoutExn => [headerTimeoutFinding]
  | HeadersOutcome.innerError m => [headerCheckErrorFinding m]
  | HeadersOutcome.outerError m => [headerModuleFailureFinding m]

/-! ## Scan orchestrator (src/backend/main.py, `scan`, lines 91-138) -/

/-- The body of a `POST /api/scan` request (`ScanRequest` in main.py):
a domain string and the list of requested scan kinds (default: all
four). -/
structure ScanRequest where
  domain : String
  scans : List String := ["ssl", "headers", "ports", "subdomains"]
deriving Repr

/-- The assembled `results` object of `scan`: the domain echoed back and
one optional section per scan kind (`timestamp` is wall-clock environment
data and carries no logic, so it is not modelled). -/
structure ScanResults where
  domain : String
  ssl : Option (List Finding)
  ports : Option (List Finding)
  subdomains : Option (List Finding)
  headers : Option (List Finding)
deriving Repr

/-- The network environment a single scan request observes: one outcome per
scanner. -/
structure ScanEnv where
  sslOutcome : SSLOutcome
  portsOutcome : PortsOutcome
  subdomainsOutcome : SubdomainsOutcome
  headersOutcome : HeadersOutcome

/-- What the `scan` endpoint hands back to FastAPI: the results object, or
an `HTTPException(status_code=400, detail=...)` raised by the `except`
clause. -/
inductive HTTPReply (α : Type)
  | ok (value : α)
  | clientError (statusCode : Nat) (detail : String)

/-- Whether a reply is a normal (non-error) reply. -/
def HTTPReply.isOk {α : Type} : HTTPReply α → Bool
  | HTTPReply.ok _ => true
  | HTTPReply.clientError _ _ => false

/-- `scan` from src/backend/main.py, lines 91-138.  The body reads
`request.domain` without any validation (no emptiness or well-formedness
check) and invokes exactly the requested scanners; since each embedded
scanner is total (its Python original converts every exception into
findings), no exception can reach the `except` clause that would produce
`HTTPException(400)`, so the reply is always `ok`. -/
def scan (request : ScanRequest) (env : ScanEnv) : HTTPReply ScanResults :=
  HTTPReply.ok
    { domain := request.domain
      ssl :=
        if "ssl" ∈ request.scans then some (check_ssl env.sslOutcome) else none
      ports :=
        if "ports" ∈ request.scans then some (scan_ports env.portsOutcome)
        else none
      subdomains :=
        if "subdomains" ∈ request.scans then
          some (scan_subdomains request.domain env.subdomainsOutcome)
        else none
      headers :=
        if "headers" ∈ request.scans then some (check_headers env.headersOutcome)
        else none }

/-! ## PDF report generator (src/backend/report_generator.py) -/

/-- A Python runtime error relevant to `generate_pdf_report`. -/
inductive PyRunError
  | nameError (name : String)
deriving DecidableEq, Repr

/-- The local names assigned in `generate_pdf_report`
(report_generator.py lines 16-107), in source order, before the SECURITY
SCORE section evaluates the name `score` on line 113.  Neither `score` nor
`checks` is assigned anywhere in the function (or at module level), yet
lines 113-118 read `score` and lines 138-140 read `checks`. -/
def pdfLocalsBeforeScoreRead : List String :=
  ["pdf_buffer", "DARK_BLUE", "LIGHT_BLUE", "CYAN", "GREEN", "YELLOW",
   "RED", "WHITE", "DARK_GRAY", "doc", "styles", "title_style",
   "heading_style", "normal_style", "story", "info_data", "info_table"]

/-- `generate_pdf_report` from src/backend/report_generator.py: the body
builds the story up to the report-info table and then evaluates `score`
(line 113, `score_color = GREEN if score >= 80 else ...`), a name that is
never assigned, so every call raises `NameError` before any counting or
rendering happens.  The byte list in the unreachable `ok` branch stands for
the PDF bytes the docstring promises. -/
def generate_pdf_report (domain timestamp : String)
    (ssl_data headers_data ports_data subdomains_data : Option (List Finding)) :
    Except PyRunError (List UInt8) :=
  if "score" ∈ pdfLocalsBeforeScoreRead then Except.ok []
  else Except.error (PyRunError.nameError "score")

/-! ## Helper lemmas -/

/-- The accumulation loop of `calculate_score` computes
`acc + 10*passCount + 5*warningCount`. -/
theorem scorePoints_aux (l : List Finding) (acc : Nat) :
    List.foldl
      (fun acc c =>
        match c.status with
        | Status.pass => acc + 10
        | Status.warning => acc + 5
        | Status.fail => acc)
      acc l
    = acc + 10 * passCount l + 5 * warningCount l := by
  induction l generalizing acc with
  | nil => simp [passCount, warningCount]
  | cons c l ih =>
    rw [List.foldl_cons, ih]
    unfold passCount warningCount
    rw [List.filter_cons, List.filter_cons]
    cases hc : c.status <;> simp [hc] <;> ring

/-- `scorePoints` in closed form. -/
theorem scorePoints_eq (l : List Finding) :
    scorePoints l = 10 * passCount l + 5 * warningCount l := by
  have h := scorePoints_aux l 0
  simpa [scorePoints] using h

/-- If the unexpected-ports list is empty, every open port is 80 or 443. -/
theorem unexpected_nil_mem (openPorts : List Nat)
    (hU : unexpectedPortsOf openPorts = []) :
    ∀ p ∈ openPorts, p = 80 ∨ p = 443 := by
  intro p hp
  have h := List.filter_eq_nil_iff.mp hU p hp
  simp at h
  exact or_iff_not_imp_left.mpr h

/-- The settled policy of the port scanner always emits at least one
finding. -/
theorem scan_ports_policy_nonempty (openPorts : List Nat) :
    1 ≤ (scan_ports_policy openPorts).length := by
  unfold scan_ports_policy
  split
  · simp
  · rename_i hne
    rw [List.length_append]
    by_cases hU : unexpectedPortsOf openPorts = []
    · have hmem := unexpected_nil_mem openPorts hU
      by_cases h443 : 443 ∈ openPorts
      · have hcond : ¬(80 ∈ openPorts ∧ 443 ∉ openPorts) := fun h => h.2 h443
        rw [if_neg hcond, if_pos h443]
        simp
      · obtain ⟨x, hx⟩ := List.exists_mem_of_ne_nil openPorts hne
        have hx80 : x = 80 := by
          rcases hmem x hx with h | h
          · exact h
          · exact absurd (h ▸ hx) h443
        have hcond : 80 ∈ openPorts ∧ 443 ∉ openPorts := ⟨hx80 ▸ hx, h443⟩
        rw [if_pos hcond]
        simp
    · rw [if_neg hU]
      simp

/-- The four post-hoc judgments of the settled port-scanner policy. -/
theorem scan_ports_policy_cases (opens : List Nat) :
    (opens = [] → scan_ports_policy opens = [portExposureFinding])
    ∧ ((∃ p ∈ opens, p ≠ 80 ∧ p ≠ 443) →
        unexpectedPortsFinding (unexpectedPortsOf opens) ∈ scan_ports_policy opens)
    ∧ (80 ∈ opens ∧ 443 ∉ opens →
        httpsNotEnabledFinding ∈ scan_ports_policy opens)
    ∧ (443 ∈ opens → httpsSupportFinding ∈ scan_ports_policy opens) := by
  refine ⟨?_, ?_, ?_, ?_⟩
  · intro h
    simp [scan_ports_policy, h]
  · intro ⟨p, hp, h80, h443⟩
    have hneq : opens ≠ [] := List.ne_nil_of_mem hp
    have hpU : p ∈ unexpectedPortsOf opens := by
      apply List.mem_filter.mpr
      exact ⟨hp, by simp [h80, h443]⟩
    have hU : unexpectedPortsOf opens ≠ [] := List.ne_nil_of_mem hpU
    unfold scan_ports_policy
    rw [if_neg hneq]
    apply List.mem_append_left
    rw [if_neg hU]
    simp
  · intro h
    have hneq : opens ≠ [] := List.ne_nil_of_mem h.1
    unfold scan_ports_policy
    rw [if_neg hneq]
    apply List.mem_append_right
    rw [if_pos h]
    simp
  · intro h
    have hneq : opens ≠ [] := List.ne_nil_of_mem h
    have hcond : ¬(80 ∈ opens ∧ 443 ∉ opens) := fun hc => hc.2 h
    unfold scan_ports_policy
    rw [if_neg hneq]
    apply List.mem_append_right
    rw [if_neg hcond, if_pos h]
    simp

/-- Every finding the settled port-scanner policy emits is pass or
warning. -/
theorem scan_ports_policy_status (opens : List Nat) (f : Finding)
    (hf : f ∈ scan_ports_policy opens) :
    f.status = Status.pass ∨ f.status = Status.warning := by
  unfold scan_ports_policy at hf
  split at hf
  · simp at hf
    subst hf
    exact Or.inl rfl
  · rcases List.mem_append.mp hf with h | h
    · split at h
      · simp at h
      · simp at h
        subst h
        exact Or.inr rfl
    · split at h
      · simp at h
        subst h
        exact Or.inr rfl
      · split at h
        · simp at h
          subst h
          exact Or.inl rfl
        · simp at h

/-- A probe map that opens exactly the given ports and refuses the rest. -/
def probeOnly (opens : List Nat) : Nat → ConnectOutcome :=
  fun p => if p ∈ opens then ConnectOutcome.connected else ConnectOutcome.refused

/-- A concrete environment in which every scanner hits its outer failure
handler (as an empty domain string produces on a real network). -/
def allFailEnv : ScanEnv :=
  { sslOutcome := SSLOutcome.innerError "gaierror"
    portsOutcome := PortsOutcome.moduleError "gaierror"
    subdomainsOutcome := SubdomainsOutcome.moduleError "gaierror"
    headersOutcome := HeadersOutcome.innerError "InvalidUrlClientError" }

/-- A DNS mock under which exactly `www.example.com` and `dev.example.com`
resolve. -/
def wwwDevResolver : String → Bool :=
  fun s => s == "www.example.com" || s == "dev.example.com"

/-- The knowledge-table entry for Strict-Transport-Security. -/
def hstsMeta : HeaderMeta :=
  { description := "Enforces HTTPS connections."
    risk := "Without HSTS, users are vulnerable to downgrade attacks."
    mitigation := "Add Strict-Transport-Security header with proper max-age." }

/-! ## Claims -/

/-- C1, counterexample: on the one-pass-finding collection the source's
`calculate_score` yields 10 while the specification's adopted pass-ratio
formula yields round(100*1/1) = 100, so the aggregate score does not equal
the pass-ratio value. -/
theorem c1_counterexample :
    calculate_score [httpsSupportFinding] = 10
      ∧ spec_score [httpsSupportFinding] = 100
      ∧ (calculate_score [httpsSupportFinding]
          == spec_score [httpsSupportFinding]) = false := by
  decide

/-- `calculate_score` in closed form (the empty-collection early return 0
coincides with the clamped weighted sum there). -/
theorem calculate_score_eq (checks : List Finding) :
    calculate_score checks
      = min 100 (10 * passCount checks + 5 * warningCount checks) := by
  unfold calculate_score
  split
  · rename_i h
    subst h
    simp [passCount, warningCount]
  · rw [scorePoints_eq]

/-- C1, amended: for every flattened finding collection the aggregate score
of the source equals `min(100, 10*passCount + 5*warningCount)` — the
weighting formula of `calculate_score` in src/backend/main.py — with the
empty collection scoring 0 (which the closed form also gives). -/
theorem c1_score_weighting (checks : List Finding) :
    calculate_score checks
      = min 100 (10 * passCount checks + 5 * warningCount checks) :=
  calculate_score_eq checks

/-- C9: appending one pass finding to any finding collection never lowers
`calculate_score`. -/
theorem c9_score_monotone (B : List Finding) (f : Finding)
    (h : f.status = Status.pass) :
    calculate_score B ≤ calculate_score (B ++ [f]) := by
  have hp : passCount (B ++ [f]) = passCount B + 1 := by
    simp only [passCount]
    rw [List.filter_append]
    simp [h]
  have hw : warningCount (B ++ [f]) = warningCount B := by
    simp only [warningCount]
    rw [List.filter_append]
    simp [h]
  rw [calculate_score_eq, calculate_score_eq, hp, hw]
  exact min_le_min_left 100 (by omega)

/-- C9, witness: the monotonicity theorem applied to the concrete collection
holding one warning finding and the concrete pass finding. -/
theorem c9_score_monotone_witness :
    httpsSupportFinding.status = Status.pass
      ∧ calculate_score [httpsNotEnabledFinding]
          ≤ calculate_score ([httpsNotEnabledFinding] ++ [httpsSupportFinding]) :=
  ⟨rfl, c9_score_monotone [httpsNotEnabledFinding] httpsSupportFinding rfl⟩

/-- C3, counterexample: at exactly 30 days until expiry the certificate
expiration finding has status warning, not pass as the claim states. -/
theorem c3_counterexample :
    (expiryFinding 30).status = Status.warning
      ∧ ((expiryFinding 30).status == Status.pass) = false := by
  decide

/-- C3, amended: the expiry finding is warning at exactly 30 days remaining
(the pass boundary is exclusive: pass requires strictly more than 30 days),
warning strictly between 0 and 30 days, and fail at 0 or negative days; and
for a completed handshake whose certificate carries that day count the
finding is part of the `check_ssl` result. -/
theorem c3_expiry_boundary (d : Int) :
    (d = 30 → (expiryFinding d).status = Status.warning)
    ∧ (0 < d ∧ d < 30 → (expiryFinding d).status = Status.warning)
    ∧ (d ≤ 0 → (expiryFinding d).status = Status.fail)
    ∧ (30 < d → (expiryFinding d).status = Status.pass)
    ∧ ∀ issuer cn, expiryFinding d ∈
        check_ssl (SSLOutcome.success (some ⟨issuer, some d⟩) (some cn)) := by
  refine ⟨?_, ?_, ?_, ?_, ?_⟩
  · intro h
    subst h
    rfl
  · intro ⟨h0, h30⟩
    rw [expiryFinding, if_neg (by omega), if_pos (by omega)]
  · intro h
    rw [expiryFinding, if_neg (by omega), if_neg (by omega)]
  · intro h
    rw [expiryFinding, if_pos (by omega)]
  · intro issuer cn
    simp [check_ssl]

/-- C3, witness: the boundary theorem at the concrete day counts 30, 15, 0
and 31 and a concrete certificate. -/
theorem c3_expiry_boundary_witness :
    (expiryFinding 30).status = Status.warning
      ∧ (expiryFinding 15).status = Status.warning
      ∧ (expiryFinding 0).status = Status.fail
      ∧ (expiryFinding 31).status = Status.pass
      ∧ expiryFinding 31 ∈
          check_ssl (SSLOutcome.success
            (some ⟨"DigiCert Inc", some 31⟩) (some "TLS_AES_256_GCM_SHA384")) :=
  ⟨(c3_expiry_boundary 30).1 rfl,
   (c3_expiry_boundary 15).2.1 ⟨by decide, by decide⟩,
   (c3_expiry_boundary 0).2.2.1 (by decide),
   (c3_expiry_boundary 31).2.2.2.1 (by decide),
   (c3_expiry_boundary 31).2.2.2.2 "DigiCert Inc" "TLS_AES_256_GCM_SHA384"⟩

/-- C8: `generate_pdf_report` never returns a byte sequence — every call
evaluates the unassigned local name `score` and raises `NameError`, so the
renderer cannot recompute any counts or score. -/
theorem c8_report_raises (domain timestamp : String)
    (ssl_data headers_data ports_data subdomains_data : Option (List Finding)) :
    generate_pdf_report domain timestamp
        ssl_data headers_data ports_data subdomains_data
      = Except.error (PyRunError.nameError "score") := rfl

/-- C2, counterexample: total probe failure in the header scanner (a generic
exception during the single HTTP GET) produces one *warning* finding and no
fail finding, contradicting the claim that total probe failure produces a
fail finding. -/
theorem c2_counterexample :
    check_headers (HeadersOutcome.innerError "boom")
        = [headerCheckErrorFinding "boom"]
      ∧ (headerCheckErrorFinding "boom").status = Status.warning
      ∧ ((check_headers (HeadersOutcome.innerError "boom")).any
          (fun f => f.status == Status.fail)) = false :=
  ⟨rfl, rfl, rfl⟩

/-- C2, amended: for every probe outcome each of the four scanners returns
normally with at least one finding (never an empty list); each total-failure
path yields its one failure finding, with status fail on every such path —
the SSL checker's timeout / SSL-error / generic / outer paths, the port and
subdomain scanners' module-error paths, the header scanner's timeout and
outer paths — except the header scanner's SSL-error and generic-exception
paths, which yield a warning finding instead. -/
theorem c2_scanners_nonempty :
    (∀ o : SSLOutcome, 1 ≤ (check_ssl o).length)
    ∧ (∀ o : PortsOutcome, 1 ≤ (scan_ports o).length)
    ∧ (∀ (domain : String) (o : SubdomainsOutcome),
        1 ≤ (scan_subdomains domain o).length)
    ∧ (∀ o : HeadersOutcome, 1 ≤ (check_headers o).length)
    ∧ (check_ssl SSLOutcome.socketTimeout = [httpsConnectivityFailFinding]
        ∧ httpsConnectivityFailFinding.status = Status.fail)
    ∧ (∀ m, check_ssl (SSLOutcome.sslError m) = [handshakeErrorFinding m]
        ∧ (handshakeErrorFinding m).status = Status.fail)
    ∧ (∀ m, check_ssl (SSLOutcome.innerError m) = [verificationFailureFinding m]
        ∧ (verificationFailureFinding m).status = Status.fail)
    ∧ (∀ m, check_ssl (SSLOutcome.outerError m) = [sslCheckFailureFinding m]
        ∧ (sslCheckFailureFinding m).status = Status.fail)
    ∧ (∀ m, scan_ports (PortsOutcome.moduleError m) = [portScanFailureFinding m]
        ∧ (portScanFailureFinding m).status = Status.fail)
    ∧ (∀ (domain : String) (m : String),
        scan_subdomains domain (SubdomainsOutcome.moduleError m)
            = [subdomainScanFailureFinding m]
        ∧ (subdomainScanFailureFinding m).status = Status.fail)
    ∧ (check_headers HeadersOutcome.timeoutExn = [headerTimeoutFinding]
        ∧ headerTimeoutFinding.status = Status.fail)
    ∧ (∀ m, check_headers (HeadersOutcome.outerError m)
            = [headerModuleFailureFinding m]
        ∧ (headerModuleFailureFinding m).status = Status.fail)
    ∧ (∀ m, check_headers (HeadersOutcome.clientSSLError m)
            = [headerSSLErrorFinding m]
        ∧ (headerSSLErrorFinding m).status = Status.warning)
    ∧ (∀ m, check_headers (HeadersOutcome.innerError m)
            = [headerCheckErrorFinding m]
        ∧ (headerCheckErrorFinding m).status = Status.warning) := by
  refine ⟨?_, ?_, ?_, ?_, ⟨rfl, rfl⟩, fun m => ⟨rfl, rfl⟩, fun m => ⟨rfl, rfl⟩,
    fun m => ⟨rfl, rfl⟩, fun m => ⟨rfl, rfl⟩, fun domain m => ⟨rfl, rfl⟩,
    ⟨rfl, rfl⟩, fun m => ⟨rfl, rfl⟩, fun m => ⟨rfl, rfl⟩, fun m => ⟨rfl, rfl⟩⟩
  · intro o
    cases o with
    | success cert cipher =>
        cases cert with
        | some c =>
            obtain ⟨issuer, nad⟩ := c
            cases nad <;> cases cipher <;> simp [check_ssl]
        | none => cases cipher <;> simp [check_ssl]
    | socketTimeout => simp [check_ssl]
    | sslError m => simp [check_ssl]
    | innerError m => simp [check_ssl]
    | outerError m => simp [check_ssl]
  · intro o
    cases o with
    | normal probe => exact scan_ports_policy_nonempty _
    | moduleError m => simp [scan_ports]
  · intro domain o
    cases o with
    | normal resolves =>
        simp only [scan_subdomains]
        split <;> simp
    | moduleError m => simp [scan_subdomains]
  · intro o
    cases o with
    | response st hdrs => simp [check_headers]
    | clientSSLError m => simp [check_headers]
    | timeoutExn => simp [check_headers]
    | innerError m => simp [check_headers]
    | outerError m => simp [check_headers]

/-- C4: the settled port scheduler emits the no-exposure pass finding
exactly when nothing is open; the unexpected-ports warning whenever some
open port is outside {80, 443}; the HTTPS-not-enabled warning whenever 80
is open and 443 closed; and the HTTPS-support pass finding whenever 443 is
open — the second and fourth about the same result list, so both findings
co-occur in one scan when both conditions hold. -/
theorem c4_port_judgments (probe : Nat → ConnectOutcome) :
    (openPortsOf probe = [] →
        scan_ports (PortsOutcome.normal probe) = [portExposureFinding])
    ∧ ((∃ p ∈ openPortsOf probe, p ≠ 80 ∧ p ≠ 443) →
        unexpectedPortsFinding (unexpectedPortsOf (openPortsOf probe))
          ∈ scan_ports (PortsOutcome.normal probe))
    ∧ (80 ∈ openPortsOf probe ∧ 443 ∉ openPortsOf probe →
        httpsNotEnabledFinding ∈ scan_ports (PortsOutcome.normal probe))
    ∧ (443 ∈ openPortsOf probe →
        httpsSupportFinding ∈ scan_ports (PortsOutcome.normal probe)) :=
  scan_ports_policy_cases (openPortsOf probe)

/-- C4, witness: the judgments at three concrete probe maps — all ports
closed; ports 22 and 443 open (unexpected-port warning and HTTPS pass
co-occur); only port 80 open. -/
theorem c4_port_judgments_witness :
    scan_ports (PortsOutcome.normal (probeOnly [])) = [portExposureFinding]
    ∧ unexpectedPortsFinding (unexpectedPortsOf (openPortsOf (probeOnly [22, 443])))
        ∈ scan_ports (PortsOutcome.normal (probeOnly [22, 443]))
    ∧ httpsSupportFinding ∈ scan_ports (PortsOutcome.normal (probeOnly [22, 443]))
    ∧ httpsNotEnabledFinding ∈ scan_ports (PortsOutcome.normal (probeOnly [80])) :=
  ⟨(c4_port_judgments (probeOnly [])).1 (by decide),
   (c4_port_judgments (probeOnly [22, 443])).2.1 ⟨22, by decide, by decide, by decide⟩,
   (c4_port_judgments (probeOnly [22, 443])).2.2.2 (by decide),
   (c4_port_judgments (probeOnly [80])).2.2.1 ⟨by decide, by decide⟩⟩

/-- C5: whenever some subdomains resolved, the subdomain scheduler emits
exactly one discovery finding (warning iff a discovered name lies outside
the baseline set, pass otherwise, details listing at most the first 5
names) followed by the dev-exposure warning finding exactly when a
discovered full name contains a dev/staging/test/beta marker — so the two
findings co-occur. -/
theorem c5_subdomain_findings (domain : String) (resolves : String → Bool)
    (hne : foundSubdomains domain resolves ≠ []) :
    scan_subdomains domain (SubdomainsOutcome.normal resolves)
      = subdomainDiscoveryFinding domain (foundSubdomains domain resolves)
          :: (if devSubdomainsOf (foundSubdomains domain resolves) = [] then []
              else [devExposureFinding
                      (devSubdomainsOf (foundSubdomains domain resolves))])
    ∧ (subdomainDiscoveryFinding domain (foundSubdomains domain resolves)).status
        = (if unexpectedSubdomainsOf domain (foundSubdomains domain resolves) = []
           then Status.pass else Status.warning)
    ∧ (subdomainDiscoveryFinding domain (foundSubdomains domain resolves)).details
        = "Found: "
            ++ String.intercalate ", " ((foundSubdomains domain resolves).take 5)
            ++ (if (foundSubdomains domain resolves).length > 5 then "..." else "")
    ∧ ((∃ s ∈ foundSubdomains domain resolves, hasDevKeyword s = true) →
        devExposureFinding (devSubdomainsOf (foundSubdomains domain resolves))
          ∈ scan_subdomains domain (SubdomainsOutcome.normal resolves)) := by
  refine ⟨?_, rfl, rfl, ?_⟩
  · simp only [scan_subdomains]
    rw [if_neg hne]
  · intro ⟨s, hs, hdev⟩
    have hdevne : devSubdomainsOf (foundSubdomains domain resolves) ≠ [] :=
      List.ne_nil_of_mem (List.mem_filter.mpr ⟨hs, hdev⟩)
    simp only [scan_subdomains]
    rw [if_neg hne, if_neg hdevne]
    simp

/-- C5, witness: with only `www.example.com` and `dev.example.com`
resolving, the discovery finding and the dev-exposure warning both appear
in the result. -/
theorem c5_subdomain_findings_witness :
    scan_subdomains "example.com" (SubdomainsOutcome.normal wwwDevResolver)
      = subdomainDiscoveryFinding "example.com"
          (foundSubdomains "example.com" wwwDevResolver)
        :: (if devSubdomainsOf (foundSubdomains "example.com" wwwDevResolver) = []
            then []
            else [devExposureFinding
                    (devSubdomainsOf (foundSubdomains "example.com" wwwDevResolver))])
    ∧ devExposureFinding (devSubdomainsOf (foundSubdomains "example.com" wwwDevResolver))
        ∈ scan_subdomains "example.com" (SubdomainsOutcome.normal wwwDevResolver) :=
  ⟨(c5_subdomain_findings "example.com" wwwDevResolver (by decide)).1,
   (c5_subdomain_findings "example.com" wwwDevResolver (by decide)).2.2.2
     ⟨"dev.example.com", by decide, by decide⟩⟩

/-- C6, counterexample: for the empty-string domain the orchestrator does
not reject the request — it returns a normal results object (each scanner
converts its failures into findings), not a client error. -/
theorem c6_counterexample :
    (scan { domain := "" } allFailEnv).isOk = true := rfl

/-- C6, amended: the orchestrator performs no domain validation at all and
never fails the overall request in this model: every scanner is total (its
Python original converts every exception into findings), so no exception
reaches the handler that would produce the client-error reply — for every
request, empty domain included, the reply is a normal results object. -/
theorem c6_never_rejects (request : ScanRequest) (env : ScanEnv) :
    (scan request env).isOk = true := rfl

/-- C7, counterexample: a response with zero tracked headers but a non-2xx,
non-3xx status yields seven fail findings (six per-header plus the
accessibility-issue finding), not exactly six. -/
theorem c7_counterexample :
    failCount (check_headers (HeadersOutcome.response 404 [])) = 7
      ∧ (failCount (check_headers (HeadersOutcome.response 404 [])) == 6)
          = false := by
  decide

/-- C7, amended: for a status-200 response containing zero of the six
tracked headers the header scheduler produces exactly six fail findings,
one per catalog header, each carrying that header's knowledge-table risk
and mitigation text (plus the accessibility pass finding); and a header
present under any letter-casing yields a pass finding whose details report
the header's actual value via the case-insensitive lookup. -/
theorem c7_header_table :
    (∀ hdrs : List (String × String),
        (∀ name ∈ trackedHeaderNames, ciMem hdrs name = false) →
        check_headers (HeadersOutcome.response 200 hdrs)
          = SECURITY_HEADERS.map (fun p => headerFailFinding p.fst p.snd)
              ++ [accessibilityPassFinding 200]
        ∧ failCount (check_headers (HeadersOutcome.response 200 hdrs)) = 6)
    ∧ (∀ (hdrs : List (String × String)) (p : String × HeaderMeta) (st : Nat),
        p ∈ SECURITY_HEADERS → ciMem hdrs p.fst = true →
        headerPassFinding p.fst p.snd (ciGet hdrs p.fst)
          ∈ check_headers (HeadersOutcome.response st hdrs)) := by
  constructor
  · intro hdrs h
    have hmap : headerFindings hdrs
        = SECURITY_HEADERS.map (fun p => headerFailFinding p.fst p.snd) := by
      apply List.map_congr_left
      intro p hp
      have hf : ciMem hdrs p.fst = false := by
        apply h
        simp only [trackedHeaderNames]
        exact List.mem_map.mpr ⟨p, hp, rfl⟩
      simp [hf]
    have hch : check_headers (HeadersOutcome.response 200 hdrs)
        = SECURITY_HEADERS.map (fun p => headerFailFinding p.fst p.snd)
            ++ [accessibilityPassFinding 200] := by
      simp [check_headers, hmap, statusFinding]
    refine ⟨hch, ?_⟩
    rw [hch]
    decide
  · intro hdrs p st hp hmem
    simp only [check_headers]
    apply List.mem_append_left
    simp only [headerFindings]
    exact List.mem_map.mpr ⟨p, hp, by simp [hmem]⟩

/-- C7, witness: the theorem at the empty header list (all six missing) and
at a response carrying Strict-Transport-Security in upper case (pass
finding with the actual value). -/
theorem c7_header_table_witness :
    (check_headers (HeadersOutcome.response 200 [])
        = SECURITY_HEADERS.map (fun p => headerFailFinding p.fst p.snd)
            ++ [accessibilityPassFinding 200]
      ∧ failCount (check_headers (HeadersOutcome.response 200 [])) = 6)
    ∧ headerPassFinding "Strict-Transport-Security" hstsMeta
        (ciGet [("STRICT-TRANSPORT-SECURITY", "max-age=63072000")]
          "Strict-Transport-Security")
        ∈ check_headers (HeadersOutcome.response 200
            [("STRICT-TRANSPORT-SECURITY", "max-age=63072000")]) :=
  ⟨c7_header_table.1 [] (by decide),
   c7_header_table.2 [("STRICT-TRANSPORT-SECURITY", "max-age=63072000")]
     ("Strict-Transport-Security", hstsMeta) 200 (by decide) (by decide)⟩

/-- C10: every finding the port scheduler emits on a run that reaches
policy evaluation has status pass or warning, never fail; the per-port
probe converts timeout, refusal and OS-level connection errors into a
closed (False) verdict; and a fail finding from this scheduler arises only
in the outer unexpected-exception handler. -/
theorem c10_ports_never_fail :
    (∀ (probe : Nat → ConnectOutcome) (f : Finding),
        f ∈ scan_ports (PortsOutcome.normal probe) →
        f.status = Status.pass ∨ f.status = Status.warning)
    ∧ check_port ConnectOutcome.timedOut = Except.ok false
    ∧ check_port ConnectOutcome.refused = Except.ok false
    ∧ (∀ m, check_port (ConnectOutcome.osError m) = Except.ok false)
    ∧ (∀ m, (portScanFailureFinding m).status = Status.fail
          ∧ scan_ports (PortsOutcome.moduleError m) = [portScanFailureFinding m]) := by
  refine ⟨?_, rfl, rfl, fun m => rfl, fun m => ⟨rfl, rfl⟩⟩
  intro probe f hf
  exact scan_ports_policy_status (openPortsOf probe) f hf

/-- C10, witness: the all-ports-closed probe emits the no-exposure finding
and the theorem classifies its status as pass or warning. -/
theorem c10_ports_never_fail_witness :
    portExposureFinding.status = Status.pass
      ∨ portExposureFinding.status = Status.warning :=
  c10_ports_never_fail.1 (probeOnly []) portExposureFinding (by decide)

end CyberHealth
